import Mathlib

/-!
Verification of the frame-by-frame vehicle-counting pipeline in
`core/detection_process.py`. The Python functions are shallowly embedded as
executable Lean definitions over exact rationals (the source computes with
Python floats; every concrete value appearing in the theorems below is
exactly representable, so the rational model agrees with the source on them).
Definitions keep the source's names and structure; the per-cycle orchestrator
loop (lines 311-453 of the source) is embedded as a pure step function over
an explicit state, processing the per-frame detection lists that the external
detection oracle would produce.
-/

-- Batteries marks the rational-number operations irreducible; re-allow
-- unfolding so that concrete runs of the model can be evaluated by `decide`.
unseal Rat.add Rat.mul Rat.sub Rat.inv Rat.ofScientific

namespace Counting

/-- Python `int()` truncates toward zero; `Int.tdiv` has the same rounding. -/
def pyInt (q : ℚ) : ℤ := Int.tdiv q.num q.den

/-- A bounding box `[x1, y1, x2, y2]` in frame-pixel coordinates. -/
structure Box where
  x1 : ℚ
  y1 : ℚ
  x2 : ℚ
  y2 : ℚ
deriving DecidableEq

/-- The settings dictionary, restricted to the keys the embedded code reads.
The source reads most keys with `settings.get(key, default)`; the defaults
(0.5 confidence, 0.1/0.3/0.9 ROI margins, ROI and movement validation
enabled, 0.3 max size ratio, 0.3 movement threshold) are materialised by the
concrete `Settings` values used in the theorems below. -/
structure Settings where
  confidence_threshold : ℚ
  class_confidence : List (String × ℚ)
  line_orientation : String
  line_offset : ℚ
  line1_x : ℚ
  line1_y : ℚ
  enable_roi_filter : Bool
  roi_margin_x : ℚ
  roi_margin_y_top : ℚ
  roi_margin_y_bottom : ℚ
  max_object_size_ratio : ℚ
  enable_movement_validation : Bool
  min_movement_threshold : ℚ
deriving DecidableEq

def MAX_DISPLAY_WIDTH : ℚ := 960

def MAX_DISPLAY_HEIGHT : ℚ := 720

/-- Euclidean distance between two positions (source: `math.sqrt(dx**2 + dy**2)`).
`Rat.sqrt` coincides with the real square root whenever the radicand is a
perfect square of a rational; every evaluation in the theorems below has a
zero or axis-aligned displacement, for which this holds exactly. -/
def calculate_distance (pos1 pos2 : ℚ × ℚ) : ℚ :=
  Rat.sqrt ((pos1.1 - pos2.1) * (pos1.1 - pos2.1) + (pos1.2 - pos2.2) * (pos1.2 - pos2.2))

/-- ROI filter: the detection's center must lie inside the configured
fractional margins of the frame. `frame_shape` is `(height, width)`. -/
def is_in_road_area (box : Box) (frame_shape : ℚ × ℚ) (settings : Settings) : Bool :=
  let h := frame_shape.1
  let w := frame_shape.2
  let road_y_start := h * settings.roi_margin_y_top
  let road_y_end := h * settings.roi_margin_y_bottom
  let road_x_start := w * settings.roi_margin_x
  let road_x_end := w * (1 - settings.roi_margin_x)
  let center_x := (box.x1 + box.x2) / 2
  let center_y := (box.y1 + box.y2) / 2
  decide (road_x_start ≤ center_x ∧ center_x ≤ road_x_end ∧
          road_y_start ≤ center_y ∧ center_y ≤ road_y_end)

/-- Ratio of the box's area to the frame's area. -/
def calculate_object_size_ratio (box : Box) (frame_shape : ℚ × ℚ) : ℚ :=
  let obj_area := (box.x2 - box.x1) * (box.y2 - box.y1)
  let frame_area := frame_shape.1 * frame_shape.2
  obj_area / frame_area

/-- The general-plausibility stage: ROI (when enabled), size-ratio bounds and
aspect-ratio bounds, with the source's early returns as nested conditionals.
The source interpolates numbers into the reason strings; the model keeps only
their fixed text. -/
def is_likely_vehicle (box : Box) (frame_shape : ℚ × ℚ) (_confidence : ℚ)
    (settings : Settings) : Bool × String :=
  if settings.enable_roi_filter && !(is_in_road_area box frame_shape settings) then
    (false, "Outside ROI area")
  else
    let size_ratio := calculate_object_size_ratio box frame_shape
    if size_ratio > settings.max_object_size_ratio then (false, "Too large")
    else if size_ratio < 0.005 then (false, "Too small")
    else
      let width := box.x2 - box.x1
      let height := box.y2 - box.y1
      let aspect_ratio := if height > 0 then width / height else 0
      if aspect_ratio < 0.5 ∨ aspect_ratio > 5.0 then (false, "Invalid aspect ratio")
      else (true, "Valid vehicle")

/-- Per-class confidence threshold, falling back to the global one. -/
def get_class_specific_confidence (class_name : String) (settings : Settings) : ℚ :=
  (settings.class_confidence.lookup class_name).getD settings.confidence_threshold

/-- Hardcoded per-class size-ratio table. -/
def size_limits : List (String × ℚ × ℚ) :=
  [("Motor", 0.005, 0.15), ("Gol I", 0.01, 0.25), ("Gol II", 0.015, 0.30),
   ("Gol III", 0.02, 0.35), ("Gol IV", 0.03, 0.50), ("Gol V", 0.04, 0.60),
   ("Gol 1", 0.01, 0.25), ("Gol 2", 0.015, 0.30), ("Gol 3", 0.02, 0.35),
   ("Gol 4", 0.03, 0.50), ("Gol 5", 0.04, 0.60)]

/-- Hardcoded per-class aspect-ratio table. -/
def aspect_limits : List (String × ℚ × ℚ) :=
  [("Motor", 0.8, 2.5), ("Gol I", 1.2, 2.8), ("Gol II", 1.2, 2.8),
   ("Gol III", 1.2, 2.8), ("Gol IV", 1.5, 4.0), ("Gol V", 1.5, 5.0),
   ("Gol 1", 1.2, 2.8), ("Gol 2", 1.2, 2.8), ("Gol 3", 1.2, 2.8),
   ("Gol 4", 1.5, 4.0), ("Gol 5", 1.5, 5.0)]

/-- The class-specific stage: per-class confidence threshold, then the size
and aspect tables (a class with no table entry passes that sub-check). -/
def validate_class_detection (class_name : String) (confidence : ℚ) (box : Box)
    (frame_shape : ℚ × ℚ) (settings : Settings) : Bool × String :=
  let required_confidence := get_class_specific_confidence class_name settings
  if confidence < required_confidence then (false, "Confidence below threshold")
  else
    let size_ratio := calculate_object_size_ratio box frame_shape
    let size_fail :=
      match size_limits.lookup class_name with
      | some lim => !(decide (lim.1 ≤ size_ratio) && decide (size_ratio ≤ lim.2))
      | none => false
    if size_fail then (false, "Size ratio outside valid range")
    else
      let width := box.x2 - box.x1
      let height := box.y2 - box.y1
      let aspect_ratio := if height > 0 then width / height else 0
      let aspect_fail :=
        match aspect_limits.lookup class_name with
        | some lim => !(decide (lim.1 ≤ aspect_ratio) && decide (aspect_ratio ≤ lim.2))
        | none => false
      if aspect_fail then (false, "Aspect ratio outside valid range")
      else (true, "Valid detection")

/-- Blacklist of class names that are frequently misdetections. -/
def BUILDING_CLASSES : List String :=
  ["house", "building", "wall", "fence", "structure", "person", "people"]

/-- Python `str.lower()`, modelled characterwise. -/
def str_lower (s : String) : String := ⟨s.toList.map Char.toLower⟩

/-- Case-insensitive substring match of the class name against the blacklist
(source: `any(building in class_lower for building in BUILDING_CLASSES)`). -/
def is_building_class (class_name : String) : Bool :=
  BUILDING_CLASSES.any (fun building => decide (building.toList <:+: (str_lower class_name).toList))

/-- Per-track state kept in the `vehicle_states` dictionary. -/
structure VehicleState where
  line : Nat
  golongan : String
  counted : Bool
  last_seen : Nat
  positions : List (ℚ × ℚ)
  first_seen : Nat
  is_moving : Bool
  total_distance : ℚ
  valid_detections : Nat
deriving DecidableEq

/-- Fresh track state with a single-point history (the source also receives
the track id but does not store it). -/
def initialize_vehicle_state (_track_id : Nat) (box : Box) (golongan : String)
    (line : Nat) (frame_num : Nat) : VehicleState :=
  let center_x := (box.x1 + box.x2) / 2
  let center_y := (box.y1 + box.y2) / 2
  { line := line
    golongan := golongan
    counted := false
    last_seen := frame_num
    positions := [(center_x, center_y)]
    first_seen := frame_num
    is_moving := false
    total_distance := 0
    valid_detections := 0 }

/-- The store's update: append the new center, refresh `last_seen`, count the
valid detection, accumulate the distance from the previous center, recompute
`is_moving` after more than 15 tracked frames (against the hardcoded 0.3
px/frame), and cap the history at the most recent 30 entries. The source
reads `positions[-2]` of the appended list, i.e. the last element of the
original history, and guards it by `len(positions) > 1`. -/
def update_vehicle_movement (vehicle_state : VehicleState) (new_box : Box)
    (frame_num : Nat) : VehicleState :=
  let center_x := (new_box.x1 + new_box.x2) / 2
  let center_y := (new_box.y1 + new_box.y2) / 2
  let new_position := (center_x, center_y)
  let positions1 := vehicle_state.positions ++ [new_position]
  let total1 :=
    match vehicle_state.positions.getLast? with
    | some last_pos => vehicle_state.total_distance + calculate_distance last_pos new_position
    | none => vehicle_state.total_distance
  let frames_tracked : ℤ := (frame_num : ℤ) - vehicle_state.first_seen
  let moving1 :=
    if frames_tracked > 15 then decide (total1 / (frames_tracked : ℚ) > 0.3)
    else vehicle_state.is_moving
  let positions2 :=
    if 30 < positions1.length then positions1.drop (positions1.length - 30) else positions1
  { vehicle_state with
      positions := positions2
      last_seen := frame_num
      valid_detections := vehicle_state.valid_detections + 1
      total_distance := total1
      is_moving := moving1 }

/-- The Movement Validator (source default `min_tracking_frames=15`; its only
caller uses the default, and the theorems below pass 15 explicitly). -/
def is_valid_vehicle_movement (vehicle_state : VehicleState) (settings : Settings)
    (min_tracking_frames : ℤ) : Bool :=
  if !settings.enable_movement_validation then true
  else
    let frames_tracked : ℤ := (vehicle_state.last_seen : ℤ) - vehicle_state.first_seen
    if frames_tracked < min_tracking_frames then true
    else if frames_tracked > min_tracking_frames then
      if vehicle_state.total_distance / (frames_tracked : ℚ) < settings.min_movement_threshold
      then false else true
    else true

/-- One oracle output per object per frame (the loop reads exactly these
fields out of the YOLO result object). -/
structure Detection where
  track_id : Nat
  class_name : String
  box : Box
  confidence : ℚ
deriving DecidableEq

/-- Result of the per-detection filter chain inside
`enhanced_detection_validation`: the stage that rejected, or acceptance. -/
inductive FilterOutcome where
  | rejectedBuilding : FilterOutcome
  | rejectedVehicle : String → FilterOutcome
  | rejectedClass : String → FilterOutcome
  | accepted : FilterOutcome
deriving DecidableEq

/-- The loop body of `enhanced_detection_validation` for one detection:
building-class blacklist first, then general plausibility, then the
class-specific rules; the first rejection short-circuits (`continue`). -/
def classify_detection (d : Detection) (frame_shape : ℚ × ℚ) (settings : Settings) :
    FilterOutcome :=
  if is_building_class d.class_name then .rejectedBuilding
  else
    let vehicle_check := is_likely_vehicle d.box frame_shape d.confidence settings
    if !vehicle_check.1 then .rejectedVehicle vehicle_check.2
    else
      let class_check := validate_class_detection d.class_name d.confidence d.box frame_shape settings
      if !class_check.1 then .rejectedClass class_check.2
      else .accepted

/-- The filtered detection list consumed downstream (the source re-packages
the same fields into dictionaries; the model keeps the records). -/
def enhanced_detection_validation (dets : List Detection) (settings : Settings)
    (frame_shape : ℚ × ℚ) : List Detection :=
  dets.filter (fun d => classify_detection d frame_shape settings == .accepted)

/-- Keys of the `vehicle_counts` dictionary. -/
def golongan_list : List String :=
  ["Gol 1", "Gol 2", "Gol 3", "Gol 4", "Gol 5", "Motor"]

/-- Initial counts: every class maps to `(In, Out) = (0, 0)`. -/
def initial_vehicle_counts : List (String × Nat × Nat) :=
  golongan_list.map (fun golongan => (golongan, 0, 0))

/-- One `new_row` appended to `pending_detections`. The source stores a
timestamp string synthesised from the frame number
(`start_time + frame_num/30 s`); the model keeps the frame number itself. -/
structure Row where
  frame_num : Nat
  vehicle_id : Nat
  vehicle_class : String
  direction : String
deriving DecidableEq

/-- The orchestrator's mutable state: the track store, the counts, the rows
pending for the next `data_update` message, and (as the model of the result
queue) every row ever sent. -/
structure LoopState where
  vehicle_states : List (Nat × VehicleState)
  vehicle_counts : List (String × Nat × Nat)
  pending_detections : List Row
  emitted_rows : List Row
deriving DecidableEq

/-- Python-dict write `m[k] = v`: replace in place when the key exists,
append otherwise (insertion order preserved). -/
def dictInsert (m : List (Nat × VehicleState)) (k : Nat) (v : VehicleState) :
    List (Nat × VehicleState) :=
  if (m.lookup k).isSome then m.map (fun p => if p.1 = k then (k, v) else p)
  else m ++ [(k, v)]

/-- Python-dict delete `del m[k]`. -/
def dictErase (m : List (Nat × VehicleState)) (k : Nat) : List (Nat × VehicleState) :=
  m.filter (fun p => decide (p.1 ≠ k))

/-- Source `vehicle_counts[golongan]["In"] += 1` (the key is always present
at the call sites, because only recognised classes are ever incremented). -/
def bump_count_in (counts : List (String × Nat × Nat)) (golongan : String) :
    List (String × Nat × Nat) :=
  counts.map (fun p => if p.1 = golongan then (p.1, p.2.1 + 1, p.2.2) else p)

/-- Source `vehicle_counts[golongan]["Out"] += 1`. -/
def bump_count_out (counts : List (String × Nat × Nat)) (golongan : String) :
    List (String × Nat × Nat) :=
  counts.map (fun p => if p.1 = golongan then (p.1, p.2.1, p.2.2 + 1) else p)

/-- Trigger point: the box's bottom edge for Horizontal orientation, the
horizontal center for Vertical (both truncated to `int` by the source). -/
def trigger_point (settings : Settings) (box : Box) : ℤ :=
  if settings.line_orientation = "Horizontal" then pyInt box.y2
  else pyInt ((box.x1 + box.x2) / 2)

/-- Crossing tolerance in pixels (hardcoded 25 at both uses in the source). -/
def tolerance : ℤ := 25

/-- The count-or-initialize part of the per-detection loop body: the
`if track_id in vehicle_states and not counted: ... elif track_id not in
vehicle_states: ...` block. -/
def counting_or_init (settings : Settings) (line1_pos line2_pos : ℤ) (frame_num : Nat)
    (st : LoopState) (d : Detection) : LoopState :=
  match st.vehicle_states.lookup d.track_id with
  | some vs =>
    if vs.counted then st
    else
      let trigger := trigger_point settings d.box
      if vs.line = 1 ∧ |trigger - line2_pos| < tolerance then
        { st with
            vehicle_counts :=
              if vs.golongan ≠ "Unknown" then bump_count_in st.vehicle_counts vs.golongan
              else st.vehicle_counts
            vehicle_states := dictInsert st.vehicle_states d.track_id { vs with counted := true }
            pending_detections :=
              st.pending_detections ++ [⟨frame_num, d.track_id, vs.golongan, "In"⟩] }
      else if vs.line = 2 ∧ |trigger - line1_pos| < tolerance then
        { st with
            vehicle_counts :=
              if vs.golongan ≠ "Unknown" then bump_count_out st.vehicle_counts vs.golongan
              else st.vehicle_counts
            vehicle_states := dictInsert st.vehicle_states d.track_id { vs with counted := true }
            pending_detections :=
              st.pending_detections ++ [⟨frame_num, d.track_id, vs.golongan, "Out"⟩] }
      else st
  | none =>
    let golongan :=
      if (st.vehicle_counts.lookup d.class_name).isSome then d.class_name else "Unknown"
    let trigger := trigger_point settings d.box
    if |trigger - line1_pos| < tolerance then
      let fresh := initialize_vehicle_state d.track_id d.box golongan 1 frame_num
      { st with vehicle_states := dictInsert st.vehicle_states d.track_id fresh }
    else if |trigger - line2_pos| < tolerance then
      let fresh := initialize_vehicle_state d.track_id d.box golongan 2 frame_num
      { st with vehicle_states := dictInsert st.vehicle_states d.track_id fresh }
    else st

/-- The whole per-detection loop body: update the known track's movement,
evict it (`continue`) when the Movement Validator rejects, otherwise fall
through to counting/initialization. -/
def process_detection (settings : Settings) (line1_pos line2_pos : ℤ) (frame_num : Nat)
    (st : LoopState) (d : Detection) : LoopState :=
  match st.vehicle_states.lookup d.track_id with
  | some vs =>
    let vs1 := update_vehicle_movement vs d.box frame_num
    let st1 := { st with vehicle_states := dictInsert st.vehicle_states d.track_id vs1 }
    if !(is_valid_vehicle_movement vs1 settings 15) then
      { st1 with vehicle_states := dictErase st1.vehicle_states d.track_id }
    else counting_or_init settings line1_pos line2_pos frame_num st1 d
  | none => counting_or_init settings line1_pos line2_pos frame_num st d

/-- The Stale Track Reaper: drop every track whose `frames_inactive` exceeds
`max_inactive_frames = 60`, or exceeds 30 while the track is not moving.
The source first collects the ids and then deletes them, which is the same
as filtering. -/
def cleanup_inactive (frame_num : Nat) (states : List (Nat × VehicleState)) :
    List (Nat × VehicleState) :=
  let max_inactive_frames : ℤ := 60
  states.filter (fun p =>
    let frames_inactive : ℤ := (frame_num : ℤ) - p.2.last_seen
    !(decide (frames_inactive > max_inactive_frames) ||
      (decide (frames_inactive > 30) && !p.2.is_moving)))

/-- Line pixel positions for a frame of height `h` and width `w`: the
configured reference coordinates scaled from the 960x720 display resolution,
`line2` offset from `line1`. -/
def line_positions (settings : Settings) (h w : ℚ) : ℤ × ℤ :=
  let line_offset_scaled := pyInt (settings.line_offset * (h / MAX_DISPLAY_HEIGHT))
  let line1_pos :=
    if settings.line_orientation = "Horizontal" then
      pyInt (settings.line1_y * (h / MAX_DISPLAY_HEIGHT))
    else pyInt (settings.line1_x * (w / MAX_DISPLAY_WIDTH))
  (line1_pos, line1_pos + line_offset_scaled)

/-- One cycle of the orchestrator loop over the oracle's detections for one
frame: filter, per-detection processing in list order, reaper, then emission
of the pending rows (the source sends a `data_update` exactly when
`pending_detections` is nonempty and clears it; appending the pending list
to `emitted_rows` models both cases). -/
def process_frame (settings : Settings) (h w : ℚ) (st : LoopState) (frame_num : Nat)
    (raw_detections : List Detection) : LoopState :=
  let lp := line_positions settings h w
  let valid_detections := enhanced_detection_validation raw_detections settings (h, w)
  let st1 := valid_detections.foldl (process_detection settings lp.1 lp.2 frame_num) st
  { st1 with
      vehicle_states := cleanup_inactive frame_num st1.vehicle_states
      emitted_rows := st1.emitted_rows ++ st1.pending_detections
      pending_detections := [] }

/-- State at loop entry: empty store, zero counts, nothing pending or sent. -/
def initial_loop_state : LoopState :=
  { vehicle_states := []
    vehicle_counts := initial_vehicle_counts
    pending_detections := []
    emitted_rows := [] }

/-- A whole continuous run over the per-frame detection lists, with
`frame_num` counting up from 0 exactly as in the source loop. -/
def run_frames (settings : Settings) (h w : ℚ) (frames : List (List Detection)) : LoopState :=
  (frames.foldl
    (fun acc dets => (process_frame settings h w acc.1 acc.2 dets, acc.2 + 1))
    (initial_loop_state, 0)).1

/-- Messages on the result queue, tagged as in the source. -/
inductive ResultMsg where
  | model_ready : ResultMsg
  | model_error : String → ResultMsg
  | frame_msg : ResultMsg
  | data_update : List (String × Nat × Nat) → List Row → ResultMsg
deriving DecidableEq

/-- The startup protocol of `detection_process`: if loading the model (the
detection oracle) fails, a single `model_error` message is put on the result
queue and the function returns before the loop; on success a `model_ready`
message precedes whatever the loop later sends. `loop_msgs` stands for the
messages of the per-cycle loop, which is never entered on failure. -/
def detection_process_startup (oracle_init : Except String Unit)
    (loop_msgs : List ResultMsg) : List ResultMsg :=
  match oracle_init with
  | .error e => [.model_error e]
  | .ok _ => .model_ready :: loop_msgs

/-! Concrete scenario data used by the theorems below. -/

/-- Settings of the line-crossing scenario: Horizontal orientation, `line1`
at reference y=300, offset 50 (so `line2` is at y=350 on a 720-pixel-high
frame), every other key at its source default. -/
def horiz_settings : Settings :=
  { confidence_threshold := 0.5
    class_confidence := []
    line_orientation := "Horizontal"
    line_offset := 50
    line1_x := 0
    line1_y := 300
    enable_roi_filter := true
    roi_margin_x := 0.1
    roi_margin_y_top := 0.3
    roi_margin_y_bottom := 0.9
    max_object_size_ratio := 0.3
    enable_movement_validation := true
    min_movement_threshold := 0.3 }

/-- A box spanning x 400..560 whose bottom edge (the Horizontal trigger
point) is `bottom` and whose center is pinned at (480, 250), so that the
track's center never moves while its trigger point does. -/
def scenario_box (bottom : ℚ) : Box := ⟨400, 500 - bottom, 560, bottom⟩

/-- A detection of the (table-free, non-blacklisted) class "car" for track
id 9 with confidence 0.9 and the given trigger point. -/
def c2_det (bottom : ℚ) : Detection := ⟨9, "car", scenario_box bottom, 0.9⟩

/-- The C2 trigger-point sequence y=298, 301, 330, 352, one sample per frame. -/
def c2_frames : List (List Detection) := [[c2_det 298], [c2_det 301], [c2_det 330], [c2_det 352]]

/-- A detection of class "car" for track id 7 with the given trigger point. -/
def c1_det (bottom : ℚ) : Detection := ⟨7, "car", scenario_box bottom, 0.9⟩

/-- A replay stream for track id 7: the track initializes on line1 (frame 0)
and is counted (frame 1); then the id is absent for 31 frames, during which
the Stale Track Reaper deletes the record (frame 32: 31 frames inactive and
not moving); then the identical two detections are replayed (frames 33-34). -/
def c1_frames : List (List Detection) :=
  [[c1_det 300], [c1_det 350]] ++ List.replicate 31 [] ++ [[c1_det 300], [c1_det 350]]

/-- The scenario settings with movement validation disabled. -/
def no_movement_settings : Settings := { horiz_settings with enable_movement_validation := false }

/-- The scenario settings with the ROI filter disabled. -/
def no_roi_settings : Settings := { horiz_settings with enable_roi_filter := false }

/-- The scenario settings with a configured movement threshold of 2 px/frame. -/
def strict_settings : Settings := { horiz_settings with min_movement_threshold := 2 }

/-- A track observed for exactly `min_tracking_frames` = 15 frames with zero
accumulated distance. -/
def boundary_vs : VehicleState := ⟨1, "Unknown", false, 15, [(480, 250)], 0, false, 0, 15⟩

/-- The spec's Movement Validator scenario: 20 tracked frames and 2px total
displacement (average 0.1 px/frame). -/
def slow_vs : VehicleState := ⟨1, "Unknown", false, 20, [(480, 250)], 0, false, 2, 20⟩

/-- A static track about to be updated at frame 20 (19 tracked frames, no
accumulated distance, last position at the center of `scenario_box 300`). -/
def evict_vs : VehicleState := ⟨1, "Unknown", false, 19, [(480, 250)], 0, false, 0, 19⟩

/-- A store holding only the static track `evict_vs` under id 4. -/
def evict_st : LoopState := ⟨[(4, evict_vs)], initial_vehicle_counts, [], []⟩

/-- A fresh valid detection of track 4 at the same center as `evict_vs`. -/
def evict_det : Detection := ⟨4, "car", scenario_box 300, 0.9⟩

/-- A track with 10px accumulated distance over what will be 20 tracked
frames at its next update (average 0.5 px/frame). -/
def c4_vs : VehicleState := ⟨1, "Unknown", false, 19, [(480, 250)], 0, false, 10, 19⟩

/-- The next box for `c4_vs`, centered exactly at its last position. -/
def c4_box : Box := scenario_box 300

/-- A track last updated at frame 100 that is still marked moving. -/
def stale_vs : VehicleState := ⟨1, "Gol 1", false, 100, [(480, 250)], 90, true, 0, 10⟩

/-- An already-counted track record for id 7. -/
def counted_vs : VehicleState := ⟨1, "Gol 1", true, 4, [(480, 250)], 0, false, 0, 4⟩

/-- A store holding only the counted track `counted_vs` under id 7. -/
def c1w_state : LoopState := ⟨[(7, counted_vs)], initial_vehicle_counts, [], []⟩

/-- A detection classified "person" with confidence 0.9. -/
def building_det : Detection := ⟨3, "person", scenario_box 300, 0.9⟩

/-- A box covering 40% of a 1000x1000 frame. -/
def big_box : Box := ⟨0, 0, 1000, 400⟩

/-- The Roman-numeral class-name variants. -/
def roman_classes : List String := ["Gol I", "Gol II", "Gol III", "Gol IV", "Gol V"]

/-- A "Gol IV" detection for track 11 whose trigger point is on line1
(box 320x100, center (480, 250), within all "Gol IV" table ranges). -/
def golIV_det1 : Detection := ⟨11, "Gol IV", ⟨320, 200, 640, 300⟩, 0.9⟩

/-- The follow-up "Gol IV" detection whose trigger point is on line2 with the
same center (box 320x200, still within all "Gol IV" table ranges). -/
def golIV_det2 : Detection := ⟨11, "Gol IV", ⟨320, 150, 640, 350⟩, 0.9⟩

/-- A two-frame run in which a "Gol IV" detection initializes on line1 and
then crosses line2. -/
def golIV_frames : List (List Detection) := [[golIV_det1], [golIV_det2]]

/-- The track record created for `golIV_det1` (class unrecognised by the
counts mapping, hence "Unknown"). -/
def golIV_vs : VehicleState := ⟨1, "Unknown", false, 0, [(480, 250)], 0, false, 0, 0⟩

/-- A store holding only `golIV_vs` under id 11. -/
def golIV_st : LoopState := ⟨[(11, golIV_vs)], initial_vehicle_counts, [], []⟩

/-! Theorems. -/

/-- C2, counterexample. In the claimed scenario (tolerance 25, Horizontal,
line1 at y=300, line2 at y=350, trigger sequence 298, 301, 330, 352) the
track is already in the store after the FIRST sample (298 is within 25px of
300), so it does not initialize "exactly at the second sample"; and the
single CountEvent is emitted at the THIRD sample (|330-350| = 20 < 25), not
at the fourth: after three samples the row is already emitted, and the
fourth sample adds nothing. -/
theorem C2_counterexample :
    ((run_frames horiz_settings 720 960 (c2_frames.take 1)).vehicle_states.lookup 9).isSome = true ∧
    (run_frames horiz_settings 720 960 (c2_frames.take 3)).emitted_rows =
      [⟨2, 9, "Unknown", "In"⟩] ∧
    (run_frames horiz_settings 720 960 c2_frames).emitted_rows =
      [⟨2, 9, "Unknown", "In"⟩] := by
  decide

/-- C2, amended: in the claimed scenario the track initializes into OnLine1
exactly at the first sample (its record after one sample is the fresh
line-1 record), emits exactly one CountEvent with direction In at the third
sample, and the fourth sample emits nothing further. -/
theorem C2_amended :
    (run_frames horiz_settings 720 960 (c2_frames.take 1)).vehicle_states.lookup 9 =
      some (initialize_vehicle_state 9 (scenario_box 298) "Unknown" 1 0) ∧
    (run_frames horiz_settings 720 960 (c2_frames.take 2)).emitted_rows = [] ∧
    (run_frames horiz_settings 720 960 (c2_frames.take 3)).emitted_rows =
      [⟨2, 9, "Unknown", "In"⟩] ∧
    (run_frames horiz_settings 720 960 c2_frames).emitted_rows =
      [⟨2, 9, "Unknown", "In"⟩] := by
  decide

/-- C1, counterexample. Replaying identical detections for track id 7 within
one continuous run produces TWO CountEvents: the track is counted at frame 1,
the Stale Track Reaper deletes the (counted) record at frame 32 after 31
inactive frames, and the replayed detections at frames 33-34 re-initialize
the id and count it a second time. -/
theorem C1_counterexample :
    (run_frames horiz_settings 720 960 c1_frames).emitted_rows =
      [⟨1, 7, "Unknown", "In"⟩, ⟨34, 7, "Unknown", "In"⟩] := by
  decide

/-- C3, counterexample. At exactly `frames_tracked = min_tracking_frames`
(15), with movement validation enabled and average displacement 0 below the
0.3 threshold, the Movement Validator returns true — the claimed "in every
other case true iff average displacement ≥ threshold" fails at this input. -/
theorem C3_counterexample :
    is_valid_vehicle_movement boundary_vs horiz_settings 15 = true ∧
    horiz_settings.enable_movement_validation = true ∧
    ¬((boundary_vs.last_seen : ℤ) - boundary_vs.first_seen < 15) ∧
    boundary_vs.total_distance /
        (((boundary_vs.last_seen : ℤ) - boundary_vs.first_seen : ℤ) : ℚ) <
      horiz_settings.min_movement_threshold := by
  decide

/-- C4, counterexample. The store's update hardcodes the 0.3 px/frame
threshold: for a track whose recomputed average displacement is 0.5
px/frame, `is_moving` is set true even though Settings configure a
2 px/frame movement threshold, contradicting the claim that the configured
threshold is what `is_moving` is compared against. -/
theorem C4_counterexample :
    (update_vehicle_movement c4_vs c4_box 20).is_moving = true ∧
    strict_settings.min_movement_threshold = 2 ∧
    ¬((c4_vs.total_distance +
          calculate_distance (480, 250) ((c4_box.x1 + c4_box.x2) / 2, (c4_box.y1 + c4_box.y2) / 2)) /
          (((20 : ℤ) - c4_vs.first_seen : ℤ) : ℚ) >
        strict_settings.min_movement_threshold) := by
  decide

/-- C4, amended: after more than 15 tracked frames the store's update
recomputes `is_moving` as (new total distance / frames tracked) > 0.3
px/frame, with the 0.3 threshold hardcoded — the function does not read
Settings at all, so the configured `min_movement_threshold` (used only by
the Movement Validator) cannot influence the flag. -/
theorem C4_amended (vs : VehicleState) (box : Box) (fn : Nat) (ps : List (ℚ × ℚ)) (p : ℚ × ℚ)
    (hpos : vs.positions = ps ++ [p]) (hframes : 15 < (fn : ℤ) - vs.first_seen) :
    (update_vehicle_movement vs box fn).is_moving =
      decide ((vs.total_distance +
          calculate_distance p ((box.x1 + box.x2) / 2, (box.y1 + box.y2) / 2)) /
          (((fn : ℤ) - vs.first_seen : ℤ) : ℚ) > 0.3) := by
  simp only [update_vehicle_movement, hpos, List.getLast?_concat]
  rw [if_pos hframes]

/-- Witness for C4_amended at the concrete track `c4_vs` updated at frame
20 by a box centered at its last position. -/
theorem C4_amended_witness :
    (update_vehicle_movement c4_vs c4_box 20).is_moving =
      decide ((c4_vs.total_distance +
          calculate_distance (480, 250) ((c4_box.x1 + c4_box.x2) / 2, (c4_box.y1 + c4_box.y2) / 2)) /
          (((20 : ℤ) - c4_vs.first_seen : ℤ) : ℚ) > 0.3) :=
  C4_amended c4_vs c4_box 20 [] (480, 250) (by decide) (by decide)

/-- C5: any detection whose class name matches the building blacklist is
rejected by the filter chain at the blacklist stage, whatever its box,
confidence, frame and settings — the outcome is pinned before the
general-plausibility and class-specific stages can contribute. -/
theorem C5 (d : Detection) (frame_shape : ℚ × ℚ) (settings : Settings)
    (h : is_building_class d.class_name = true) :
    classify_detection d frame_shape settings = .rejectedBuilding := by
  simp [classify_detection, h]

/-- Witness for C5: a "person" detection with confidence 0.9 is rejected at
the blacklist stage. -/
theorem C5_witness :
    is_building_class "person" = true ∧
    classify_detection building_det (720, 960) horiz_settings = .rejectedBuilding :=
  ⟨by decide, C5 building_det (720, 960) horiz_settings (by decide)⟩

/-- C6: the general-plausibility stage rejects every detection whose size
ratio exceeds `max_object_size_ratio`, is below the fixed 0.005 floor, or
whose aspect ratio lies outside [0.5, 5.0] — independently of the
detection's confidence. -/
theorem C6 (box : Box) (frame_shape : ℚ × ℚ) (confidence : ℚ) (settings : Settings)
    (h : calculate_object_size_ratio box frame_shape > settings.max_object_size_ratio ∨
        calculate_object_size_ratio box frame_shape < 0.005 ∨
        (if box.y2 - box.y1 > 0 then (box.x2 - box.x1) / (box.y2 - box.y1) else 0) < 0.5 ∨
        (if box.y2 - box.y1 > 0 then (box.x2 - box.x1) / (box.y2 - box.y1) else 0) > 5.0) :
    (is_likely_vehicle box frame_shape confidence settings).1 = false := by
  simp only [is_likely_vehicle]
  split_ifs with h1 h2 h3 h4 h5 h6 <;> try rfl
  · rcases h with hh | hh | hh | hh
    · exact absurd hh h2
    · exact absurd hh h3
    · rw [if_pos h4] at hh
      exact absurd (Or.inl hh) h5
    · rw [if_pos h4] at hh
      exact absurd (Or.inr hh) h5
  · exact absurd (Or.inl (by norm_num)) h6

/-- Witness for C6: a box covering 40% of a 1000x1000 frame is rejected
with `max_object_size_ratio` = 0.3, at confidence 0.9. -/
theorem C6_witness :
    calculate_object_size_ratio big_box (1000, 1000) > no_roi_settings.max_object_size_ratio ∧
    (is_likely_vehicle big_box (1000, 1000) 0.9 no_roi_settings).1 = false :=
  ⟨by decide, C6 big_box (1000, 1000) 0.9 no_roi_settings (Or.inl (by decide))⟩

/-- C7: the Stale Track Reaper keeps a tracked id exactly when its
`frames_inactive = current_frame - last_seen` neither exceeds
`max_inactive_frames` = 60 nor both exceeds 30 with `is_moving` false; in
particular a track last updated at frame 100 and evaluated at frame 162 is
removed (62 > 60) even while marked moving. -/
theorem C7 :
    (∀ (frame_num : Nat) (states : List (Nat × VehicleState)) (tid : Nat) (vs : VehicleState),
      (tid, vs) ∈ cleanup_inactive frame_num states ↔
        (tid, vs) ∈ states ∧
          ¬((frame_num : ℤ) - vs.last_seen > 60 ∨
            ((frame_num : ℤ) - vs.last_seen > 30 ∧ vs.is_moving = false))) ∧
    cleanup_inactive 162 [(5, stale_vs)] = [] := by
  constructor
  · intro frame_num states tid vs
    simp only [cleanup_inactive, List.mem_filter, Bool.not_eq_true', Bool.or_eq_false_iff,
      Bool.and_eq_false_iff, decide_eq_false_iff_not]
    constructor
    · rintro ⟨hmem, h60, h30⟩
      refine ⟨hmem, ?_⟩
      rintro (hgt | ⟨hgt, hmov⟩)
      · exact h60 hgt
      · rcases h30 with h | h
        · exact h hgt
        · rw [hmov] at h
          simp at h
    · rintro ⟨hmem, hnot⟩
      refine ⟨hmem, fun hgt => hnot (Or.inl hgt), ?_⟩
      by_cases hmov : vs.is_moving = true
      · right
        simp [hmov]
      · left
        intro hgt
        exact hnot (Or.inr ⟨hgt, by revert hmov; cases vs.is_moving <;> simp⟩)
  · decide

/-- Witness for C7, instantiating the removal criterion at the concrete
stale track. -/
theorem C7_witness :
    (5, stale_vs) ∈ cleanup_inactive 162 [(5, stale_vs)] ↔
      (5, stale_vs) ∈ [(5, stale_vs)] ∧
        ¬(((162 : Nat) : ℤ) - stale_vs.last_seen > 60 ∨
          (((162 : Nat) : ℤ) - stale_vs.last_seen > 30 ∧ stale_vs.is_moving = false)) :=
  C7.1 162 [(5, stale_vs)] 5 stale_vs

/-- Length of the position history after one store update: the appended
history, capped at 30. -/
theorem update_positions_length (vs : VehicleState) (box : Box) (fn : Nat) :
    (update_vehicle_movement vs box fn).positions.length = min (vs.positions.length + 1) 30 := by
  simp only [update_vehicle_movement]
  split
  · rename_i hlen
    simp only [List.length_drop, List.length_append, List.length_cons, List.length_nil] at *
    omega
  · rename_i hlen
    simp only [List.length_append, List.length_cons, List.length_nil] at *
    omega

/-- The position history after one store update is a suffix of the appended
history: only oldest entries are ever dropped. -/
theorem update_positions_suffix (vs : VehicleState) (box : Box) (fn : Nat) :
    (update_vehicle_movement vs box fn).positions <:+
      vs.positions ++ [((box.x1 + box.x2) / 2, (box.y1 + box.y2) / 2)] := by
  simp only [update_vehicle_movement]
  split
  · exact List.drop_suffix _ _
  · exact List.suffix_refl _

/-- C8: track creation yields a single-point history, and every store update
appends the new center and keeps at most the 30 most recent entries (the
resulting history has length min(old+1, 30), is never longer than 30, and is
a suffix of the appended history, so only the oldest entries are dropped). -/
theorem C8 :
    (∀ (tid : Nat) (box : Box) (golongan : String) (line fn : Nat),
      (initialize_vehicle_state tid box golongan line fn).positions.length = 1) ∧
    (∀ (vs : VehicleState) (box : Box) (fn : Nat),
      (update_vehicle_movement vs box fn).positions.length = min (vs.positions.length + 1) 30) ∧
    (∀ (vs : VehicleState) (box : Box) (fn : Nat),
      (update_vehicle_movement vs box fn).positions.length ≤ 30) ∧
    (∀ (vs : VehicleState) (box : Box) (fn : Nat),
      (update_vehicle_movement vs box fn).positions <:+
        vs.positions ++ [((box.x1 + box.x2) / 2, (box.y1 + box.y2) / 2)]) := by
  refine ⟨fun _ _ _ _ _ => rfl, update_positions_length, ?_, update_positions_suffix⟩
  intro vs box fn
  rw [update_positions_length]
  exact Nat.min_le_right _ _

/-- C9: when the detection oracle fails to initialize, the result queue
receives exactly the single fatal `model_error` message — whatever the
per-cycle loop would have sent is never sent, and no ready, frame or
data-update message ever appears. -/
theorem C9 (e : String) (loop_msgs : List ResultMsg) :
    detection_process_startup (.error e) loop_msgs = [.model_error e] ∧
    (∀ m ∈ detection_process_startup (.error e) loop_msgs,
      m ≠ .model_ready ∧ m ≠ .frame_msg ∧ ∀ cs rows, m ≠ .data_update cs rows) := by
  refine ⟨rfl, ?_⟩
  intro m hm
  simp only [detection_process_startup, List.mem_singleton] at hm
  subst hm
  exact ⟨by simp, by simp, fun cs rows => by simp⟩

/-- Witness for C9 at a concrete error message and a nonempty would-be loop
output. -/
theorem C9_witness :
    detection_process_startup (.error "model load failed") [.frame_msg] =
      [.model_error "model load failed"] :=
  (C9 "model load failed" [.frame_msg]).1

/-- Replacing the value stored under a present key makes that key map to the
new value. -/
theorem lookup_map_self (m : List (Nat × VehicleState)) (k : Nat) (v : VehicleState)
    (h : (m.lookup k).isSome = true) :
    (m.map (fun p => if p.1 = k then (k, v) else p)).lookup k = some v := by
  induction m with
  | nil => simp at h
  | cons p rest ih =>
    obtain ⟨p1, p2⟩ := p
    by_cases hp : p1 = k
    · subst hp
      simp [List.lookup_cons]
    · have hb : (k == p1) = false := beq_eq_false_iff_ne.mpr (Ne.symm hp)
      rw [List.lookup_cons] at h
      simp only [hb] at h
      simp only [List.map_cons, if_neg hp, List.lookup_cons, hb]
      exact ih h

/-- Replacing the value stored under one key leaves every other key's
binding unchanged. -/
theorem lookup_map_other (m : List (Nat × VehicleState)) (k : Nat) (v : VehicleState)
    (k' : Nat) (h : k' ≠ k) :
    (m.map (fun p => if p.1 = k then (k, v) else p)).lookup k' = m.lookup k' := by
  induction m with
  | nil => simp
  | cons p rest ih =>
    obtain ⟨p1, p2⟩ := p
    by_cases hp : p1 = k
    · subst hp
      have hb : (k' == p1) = false := beq_eq_false_iff_ne.mpr h
      simp only [List.map_cons, eq_self_iff_true, if_true, ite_true, List.lookup_cons, hb]
      exact ih
    · simp only [List.map_cons, if_neg hp, List.lookup_cons]
      cases hkp : k' == p1
      · exact ih
      · rfl

/-- A Python-dict write makes the written key map to the written value. -/
theorem dictInsert_lookup_self (m : List (Nat × VehicleState)) (k : Nat) (v : VehicleState) :
    (dictInsert m k v).lookup k = some v := by
  unfold dictInsert
  split
  · exact lookup_map_self _ _ _ (by assumption)
  · rename_i hnone
    rw [List.lookup_append]
    have hm : m.lookup k = none := by
      cases hx : m.lookup k
      · rfl
      · rw [hx] at hnone
        simp at hnone
    simp [hm, List.lookup_cons]

/-- A Python-dict write leaves every other key's binding unchanged. -/
theorem dictInsert_lookup_other (m : List (Nat × VehicleState)) (k : Nat) (v : VehicleState)
    (k' : Nat) (h : k' ≠ k) :
    (dictInsert m k v).lookup k' = m.lookup k' := by
  unfold dictInsert
  split
  · exact lookup_map_other _ _ _ _ h
  · rw [List.lookup_append]
    have hb : (k' == k) = false := beq_eq_false_iff_ne.mpr h
    cases hx : m.lookup k' <;> simp [List.lookup_cons, hb]

/-- A Python-dict delete removes the key's binding. -/
theorem dictErase_lookup_self (m : List (Nat × VehicleState)) (k : Nat) :
    (dictErase m k).lookup k = none := by
  rw [List.lookup_eq_none_iff]
  intro p hp
  simp only [dictErase, List.mem_filter, decide_eq_true_eq] at hp
  exact bne_iff_ne.mpr (Ne.symm hp.2)

/-- A Python-dict delete leaves every other key's binding unchanged. -/
theorem dictErase_lookup_other (m : List (Nat × VehicleState)) (k : Nat)
    (k' : Nat) (h : k' ≠ k) :
    (dictErase m k).lookup k' = m.lookup k' := by
  simp only [dictErase]
  induction m with
  | nil => rfl
  | cons p rest ih =>
    obtain ⟨p1, p2⟩ := p
    rw [List.filter_cons]
    by_cases hp : p1 = k
    · subst hp
      have hb : (k' == p1) = false := beq_eq_false_iff_ne.mpr h
      have hcond : decide ((p1, p2).1 ≠ p1) = false := by simp
      rw [hcond]
      simp only [Bool.false_eq_true, if_false, List.lookup_cons, hb]
      exact ih
    · have hcond : decide ((p1, p2).1 ≠ k) = true := by simp [hp]
      rw [hcond]
      simp only [if_true, List.lookup_cons]
      cases hkp : k' == p1
      · exact ih
      · rfl

/-- C3, amended: the Movement Validator returns true whenever movement
validation is disabled; returns true whenever `frames_tracked`
(last_seen − first_seen) is AT MOST `min_tracking_frames` (the boundary
value 15 also falls into the grace period); for strictly more tracked
frames it returns true iff the average per-frame displacement reaches
`min_movement_threshold`; and a track failing the check is removed from the
store by the per-detection step with nothing appended to the pending rows,
so it cannot be counted in that cycle. -/
theorem C3_amended :
    (∀ (vs : VehicleState) (settings : Settings),
      settings.enable_movement_validation = false →
      is_valid_vehicle_movement vs settings 15 = true) ∧
    (∀ (vs : VehicleState) (settings : Settings),
      (vs.last_seen : ℤ) - vs.first_seen ≤ 15 →
      is_valid_vehicle_movement vs settings 15 = true) ∧
    (∀ (vs : VehicleState) (settings : Settings),
      settings.enable_movement_validation = true →
      15 < (vs.last_seen : ℤ) - vs.first_seen →
      (is_valid_vehicle_movement vs settings 15 = true ↔
        settings.min_movement_threshold ≤
          vs.total_distance / (((vs.last_seen : ℤ) - vs.first_seen : ℤ) : ℚ))) ∧
    (∀ (settings : Settings) (l1 l2 : ℤ) (fn : Nat) (st : LoopState) (d : Detection)
      (vs : VehicleState),
      st.vehicle_states.lookup d.track_id = some vs →
      is_valid_vehicle_movement (update_vehicle_movement vs d.box fn) settings 15 = false →
      (process_detection settings l1 l2 fn st d).vehicle_states.lookup d.track_id = none ∧
      (process_detection settings l1 l2 fn st d).pending_detections = st.pending_detections) := by
  refine ⟨?_, ?_, ?_, ?_⟩
  · intro vs settings hdis
    simp [is_valid_vehicle_movement, hdis]
  · intro vs settings hle
    simp only [is_valid_vehicle_movement]
    split
    · rfl
    · split
      · rfl
      · split
        · omega
        · rfl
  · intro vs settings hen hgt
    simp only [is_valid_vehicle_movement, hen, Bool.not_true, Bool.false_eq_true, if_false]
    rw [if_neg (by omega), if_pos hgt]
    by_cases hc :
        vs.total_distance / (((vs.last_seen : ℤ) - vs.first_seen : ℤ) : ℚ) <
          settings.min_movement_threshold
    · simp [hc, not_le.mpr hc]
    · simp [hc, not_lt.mp hc]
  · intro settings l1 l2 fn st d vs hvs hbad
    constructor
    · simp only [process_detection, hvs, hbad, Bool.not_false, if_true]
      exact dictErase_lookup_self _ _
    · simp [process_detection, hvs, hbad]

/-- Witness for C3_amended: validation disabled; the 15-frame boundary
track; the spec's 20-frame/2px track (average 0.1 < 0.3, hence invalid);
and the concrete eviction of the static track 4 by the per-detection step. -/
theorem C3_amended_witness :
    is_valid_vehicle_movement boundary_vs no_movement_settings 15 = true ∧
    is_valid_vehicle_movement boundary_vs horiz_settings 15 = true ∧
    (is_valid_vehicle_movement slow_vs horiz_settings 15 = true ↔
      horiz_settings.min_movement_threshold ≤
        slow_vs.total_distance / (((slow_vs.last_seen : ℤ) - slow_vs.first_seen : ℤ) : ℚ)) ∧
    ((process_detection horiz_settings 300 350 20 evict_st evict_det).vehicle_states.lookup 4 =
        none ∧
      (process_detection horiz_settings 300 350 20 evict_st evict_det).pending_detections =
        evict_st.pending_detections) :=
  ⟨C3_amended.1 boundary_vs no_movement_settings (by decide),
   C3_amended.2.1 boundary_vs horiz_settings (by decide),
   C3_amended.2.2.1 slow_vs horiz_settings (by decide) (by decide),
   C3_amended.2.2.2 horiz_settings 300 350 20 evict_st evict_det evict_vs (by decide) (by decide)⟩

/-- C10: the Roman-numeral classes "Gol I".."Gol V" all have class-specific
size and aspect table entries yet none is a key of the counts mapping; a
first line-1 contact of a detection whose class is not a counts key creates
a track with vehicle class "Unknown"; when an uncounted "Unknown" line-1
track crosses line2 (and survives movement validation), one row with class
"Unknown" is appended while the counts mapping is left unchanged; and in
the concrete two-frame "Gol IV" run the accepted detections produce exactly
one "Unknown" CountEvent and no count increment. -/
theorem C10 :
    (∀ c ∈ roman_classes,
      initial_vehicle_counts.lookup c = none ∧
      (size_limits.lookup c).isSome = true ∧ (aspect_limits.lookup c).isSome = true) ∧
    (∀ (settings : Settings) (l1 l2 : ℤ) (fn : Nat) (st : LoopState) (d : Detection),
      st.vehicle_states.lookup d.track_id = none →
      st.vehicle_counts.lookup d.class_name = none →
      |trigger_point settings d.box - l1| < tolerance →
      (process_detection settings l1 l2 fn st d).vehicle_states.lookup d.track_id =
        some (initialize_vehicle_state d.track_id d.box "Unknown" 1 fn)) ∧
    (∀ (settings : Settings) (l1 l2 : ℤ) (fn : Nat) (st : LoopState) (d : Detection)
      (vs : VehicleState),
      st.vehicle_states.lookup d.track_id = some vs →
      is_valid_vehicle_movement (update_vehicle_movement vs d.box fn) settings 15 = true →
      vs.counted = false → vs.golongan = "Unknown" → vs.line = 1 →
      |trigger_point settings d.box - l2| < tolerance →
      (process_detection settings l1 l2 fn st d).vehicle_counts = st.vehicle_counts ∧
      (process_detection settings l1 l2 fn st d).pending_detections =
        st.pending_detections ++ [⟨fn, d.track_id, "Unknown", "In"⟩]) ∧
    ((run_frames horiz_settings 720 960 golIV_frames).emitted_rows =
        [⟨1, 11, "Unknown", "In"⟩] ∧
      (run_frames horiz_settings 720 960 golIV_frames).vehicle_counts =
        initial_vehicle_counts ∧
      classify_detection golIV_det1 (720, 960) horiz_settings = .accepted ∧
      classify_detection golIV_det2 (720, 960) horiz_settings = .accepted) := by
  refine ⟨by decide, ?_, ?_, by decide⟩
  · intro settings l1 l2 fn st d hnone hcounts htrig
    simp only [process_detection, hnone, counting_or_init, hcounts, Option.isSome_none,
      Bool.false_eq_true, if_false]
    rw [if_pos htrig]
    exact dictInsert_lookup_self _ _ _
  · intro settings l1 l2 fn st d vs hvs hvalid hcounted hgol hline htrig
    have hlook :
        (dictInsert st.vehicle_states d.track_id (update_vehicle_movement vs d.box fn)).lookup
          d.track_id = some (update_vehicle_movement vs d.box fn) :=
      dictInsert_lookup_self _ _ _
    have hc : (update_vehicle_movement vs d.box fn).counted = vs.counted := rfl
    have hg : (update_vehicle_movement vs d.box fn).golongan = vs.golongan := rfl
    have hl : (update_vehicle_movement vs d.box fn).line = vs.line := rfl
    simp only [process_detection, hvs, hvalid, Bool.not_true, Bool.false_eq_true, if_false,
      counting_or_init, hlook, hc, hg, hl, hcounted, hgol, hline]
    rw [if_pos ⟨by trivial, htrig⟩]
    simp

/-- Witness for C10: the "Gol IV" detection creates an "Unknown" track on
first line-1 contact in the empty store, and the follow-up crossing appends
exactly the "Unknown" row without touching the counts. -/
theorem C10_witness :
    (process_detection horiz_settings 300 350 0 initial_loop_state golIV_det1).vehicle_states.lookup
        11 = some (initialize_vehicle_state 11 golIV_det1.box "Unknown" 1 0) ∧
    ((process_detection horiz_settings 300 350 1 golIV_st golIV_det2).vehicle_counts =
        golIV_st.vehicle_counts ∧
      (process_detection horiz_settings 300 350 1 golIV_st golIV_det2).pending_detections =
        golIV_st.pending_detections ++ [⟨1, 11, "Unknown", "In"⟩]) :=
  ⟨by
    have h := C10.2.1 horiz_settings 300 350 0 initial_loop_state golIV_det1
      (by decide) (by decide) (by decide)
    simpa using h,
   C10.2.2.1 horiz_settings 300 350 1 golIV_st golIV_det2 golIV_vs
     (by decide) (by decide) (by decide) (by decide) (by decide) (by decide)⟩

/-- A key that looks up to a value is present as a pair. -/
theorem lookup_mem {m : List (Nat × VehicleState)} {k : Nat} {v : VehicleState}
    (h : m.lookup k = some v) : (k, v) ∈ m := by
  rcases List.lookup_eq_some_iff.mp h with ⟨l₁, l₂, rfl, -⟩
  exact List.mem_append.mpr (Or.inr (List.mem_cons_self _ _))

/-- With duplicate-free keys (as in a Python dict), every pair stored under
the looked-up key carries the looked-up value. -/
theorem all_eq_of_lookup_nodup (m : List (Nat × VehicleState)) (tid : Nat) (vs : VehicleState)
    (hnd : (m.map Prod.fst).Nodup) (hvs : m.lookup tid = some vs) :
    ∀ p ∈ m, p.1 = tid → p.2 = vs := by
  rcases List.lookup_eq_some_iff.mp hvs with ⟨l₁, l₂, rfl, hl₁⟩
  intro p hp hpt
  rcases List.mem_append.mp hp with hmem | hmem
  · have hb := hl₁ p hmem
    rw [hpt] at hb
    simp at hb
  · rcases List.mem_cons.mp hmem with heq | hmem
    · rw [heq]
    · exfalso
      rw [List.map_append, List.map_cons] at hnd
      have h2 := (List.nodup_cons.mp hnd.of_append_right).1
      have h3 : p.1 ∈ l₂.map Prod.fst := List.mem_map_of_mem Prod.fst hmem
      rw [hpt] at h3
      exact h2 h3

/-- Every pair of a Python-dict write's result is an original pair or the
written one. -/
theorem mem_dictInsert {m : List (Nat × VehicleState)} {k : Nat} {v : VehicleState}
    {p : Nat × VehicleState} (hp : p ∈ dictInsert m k v) : p ∈ m ∨ p = (k, v) := by
  unfold dictInsert at hp
  split at hp
  · rcases List.mem_map.mp hp with ⟨q, hq, hqe⟩
    by_cases hqk : q.1 = k
    · right
      rw [← hqe, if_pos hqk]
    · left
      rwa [← hqe, if_neg hqk]
  · rcases List.mem_append.mp hp with h | h
    · exact Or.inl h
    · right
      simpa using h

/-- A Python-dict delete only removes pairs. -/
theorem mem_dictErase {m : List (Nat × VehicleState)} {k : Nat} {p : Nat × VehicleState}
    (hp : p ∈ dictErase m k) : p ∈ m :=
  List.mem_of_mem_filter hp

/-- When the looked-up track is already counted, the count-or-initialize
block does nothing. -/
theorem counting_or_init_counted_stop (settings : Settings) (l1 l2 : ℤ) (fn : Nat)
    (st : LoopState) (d : Detection) (vs : VehicleState)
    (hvs : st.vehicle_states.lookup d.track_id = some vs) (hcnt : vs.counted = true) :
    counting_or_init settings l1 l2 fn st d = st := by
  simp [counting_or_init, hvs, hcnt]

/-- The count-or-initialize block only appends rows carrying the processed
detection's track id. -/
theorem counting_or_init_pending (settings : Settings) (l1 l2 : ℤ) (fn : Nat)
    (st : LoopState) (d : Detection) :
    ∃ rows, (counting_or_init settings l1 l2 fn st d).pending_detections =
      st.pending_detections ++ rows ∧ ∀ r ∈ rows, r.vehicle_id = d.track_id := by
  unfold counting_or_init
  cases hm : st.vehicle_states.lookup d.track_id with
  | none =>
    dsimp only
    split_ifs <;> exact ⟨[], by simp, by simp⟩
  | some vs =>
    dsimp only
    split_ifs with hc h2 h3 h4 h5
    · exact ⟨[], by simp, by simp⟩
    · exact ⟨[⟨fn, d.track_id, vs.golongan, "In"⟩], rfl, by simp⟩
    · exact ⟨[⟨fn, d.track_id, vs.golongan, "In"⟩], rfl, by simp⟩
    · exact ⟨[⟨fn, d.track_id, vs.golongan, "Out"⟩], rfl, by simp⟩
    · exact ⟨[⟨fn, d.track_id, vs.golongan, "Out"⟩], rfl, by simp⟩
    · exact ⟨[], by simp, by simp⟩

/-- The per-detection step only appends rows carrying the processed
detection's track id. -/
theorem process_detection_pending (settings : Settings) (l1 l2 : ℤ) (fn : Nat)
    (st : LoopState) (d : Detection) :
    ∃ rows, (process_detection settings l1 l2 fn st d).pending_detections =
      st.pending_detections ++ rows ∧ ∀ r ∈ rows, r.vehicle_id = d.track_id := by
  unfold process_detection
  cases hm : st.vehicle_states.lookup d.track_id with
  | none => exact counting_or_init_pending _ _ _ _ _ _
  | some vs =>
    dsimp only
    split_ifs with h1
    · exact ⟨[], by simp, by simp⟩
    · exact counting_or_init_pending _ _ _ _ _ _

/-- The count-or-initialize block never touches the already-sent rows. -/
theorem counting_or_init_emitted (settings : Settings) (l1 l2 : ℤ) (fn : Nat)
    (st : LoopState) (d : Detection) :
    (counting_or_init settings l1 l2 fn st d).emitted_rows = st.emitted_rows := by
  unfold counting_or_init
  cases hm : st.vehicle_states.lookup d.track_id <;> dsimp only <;> split_ifs <;> rfl

/-- The per-detection step never touches the already-sent rows. -/
theorem process_detection_emitted (settings : Settings) (l1 l2 : ℤ) (fn : Nat)
    (st : LoopState) (d : Detection) :
    (process_detection settings l1 l2 fn st d).emitted_rows = st.emitted_rows := by
  unfold process_detection
  cases hm : st.vehicle_states.lookup d.track_id with
  | none => exact counting_or_init_emitted _ _ _ _ _ _
  | some vs =>
    dsimp only
    split_ifs with h1
    · rfl
    · exact counting_or_init_emitted _ _ _ _ _ _

/-- The count-or-initialize block leaves other track ids' records alone. -/
theorem counting_or_init_lookup_other (settings : Settings) (l1 l2 : ℤ) (fn : Nat)
    (st : LoopState) (d : Detection) (tid : Nat) (h : d.track_id ≠ tid) :
    (counting_or_init settings l1 l2 fn st d).vehicle_states.lookup tid =
      st.vehicle_states.lookup tid := by
  unfold counting_or_init
  cases hm : st.vehicle_states.lookup d.track_id with
  | none =>
    dsimp only
    split_ifs <;> first | rfl | exact dictInsert_lookup_other _ _ _ _ (Ne.symm h)
  | some vs =>
    dsimp only
    split_ifs <;> first | rfl | exact dictInsert_lookup_other _ _ _ _ (Ne.symm h)

/-- The per-detection step leaves other track ids' records alone. -/
theorem process_detection_lookup_other (settings : Settings) (l1 l2 : ℤ) (fn : Nat)
    (st : LoopState) (d : Detection) (tid : Nat) (h : d.track_id ≠ tid) :
    (process_detection settings l1 l2 fn st d).vehicle_states.lookup tid =
      st.vehicle_states.lookup tid := by
  unfold process_detection
  cases hm : st.vehicle_states.lookup d.track_id with
  | none => exact counting_or_init_lookup_other _ _ _ _ _ _ _ h
  | some vs =>
    dsimp only
    split_ifs with h1
    · rw [dictErase_lookup_other _ _ _ (Ne.symm h)]
      exact dictInsert_lookup_other _ _ _ _ (Ne.symm h)
    · rw [counting_or_init_lookup_other _ _ _ _ _ _ _ h]
      exact dictInsert_lookup_other _ _ _ _ (Ne.symm h)

/-- Every record after the count-or-initialize block either was already
stored or is stored under the processed detection's track id. -/
theorem mem_counting_or_init {settings : Settings} {l1 l2 : ℤ} {fn : Nat}
    {st : LoopState} {d : Detection} {p : Nat × VehicleState}
    (hp : p ∈ (counting_or_init settings l1 l2 fn st d).vehicle_states) :
    p ∈ st.vehicle_states ∨ p.1 = d.track_id := by
  unfold counting_or_init at hp
  cases hm : st.vehicle_states.lookup d.track_id with
  | none =>
    simp only [hm] at hp
    split_ifs at hp <;>
      first
        | exact Or.imp id (fun hh => by rw [hh]) (mem_dictInsert hp)
        | exact Or.inl hp
  | some vs =>
    simp only [hm] at hp
    split_ifs at hp <;>
      first
        | exact Or.imp id (fun hh => by rw [hh]) (mem_dictInsert hp)
        | exact Or.inl hp

/-- Every record after the per-detection step either was already stored or is
stored under the processed detection's track id. -/
theorem mem_process_detection {settings : Settings} {l1 l2 : ℤ} {fn : Nat}
    {st : LoopState} {d : Detection} {p : Nat × VehicleState}
    (hp : p ∈ (process_detection settings l1 l2 fn st d).vehicle_states) :
    p ∈ st.vehicle_states ∨ p.1 = d.track_id := by
  unfold process_detection at hp
  cases hm : st.vehicle_states.lookup d.track_id with
  | none =>
    simp only [hm] at hp
    exact mem_counting_or_init hp
  | some vs =>
    simp only [hm] at hp
    split_ifs at hp with h1
    · rcases mem_dictInsert (mem_dictErase hp) with h | h
      · exact Or.inl h
      · right
        rw [h]
    · rcases mem_counting_or_init hp with h | h
      · rcases mem_dictInsert h with h' | h'
        · exact Or.inl h'
        · right
          rw [h']
      · exact Or.inr h

/-- Processing a detection of an already-counted track either evicts the
record (Movement Validator) or just applies the movement update — it never
emits and never resets the flag. -/
theorem process_detection_of_counted {settings : Settings} {l1 l2 : ℤ} {fn : Nat}
    {st : LoopState} {d : Detection} {vs : VehicleState}
    (hvs : st.vehicle_states.lookup d.track_id = some vs) (hcnt : vs.counted = true) :
    process_detection settings l1 l2 fn st d =
      { st with vehicle_states :=
          dictErase (dictInsert st.vehicle_states d.track_id
            (update_vehicle_movement vs d.box fn)) d.track_id } ∨
    process_detection settings l1 l2 fn st d =
      { st with vehicle_states :=
          dictInsert st.vehicle_states d.track_id (update_vehicle_movement vs d.box fn) } := by
  unfold process_detection
  simp only [hvs]
  split_ifs with h1
  · left
    rfl
  · right
    exact counting_or_init_counted_stop _ _ _ _ _ _ _ (dictInsert_lookup_self _ _ _) hcnt

/-- Folding the per-detection step over a frame's detections, at most one of
which carries the watched track id: if every stored record under that id is
counted (and the record exists whenever a detection for it is pending), then
afterwards every stored record under the id is still counted, no pending row
for the id was added, and the emitted rows are untouched. -/
theorem fold_keeps_counted (settings : Settings) (l1 l2 : ℤ) (fn : Nat) (tid : Nat) :
    ∀ (dets : List Detection) (st : LoopState),
      (∀ p ∈ st.vehicle_states, p.1 = tid → p.2.counted = true) →
      (dets.filter fun d => decide (d.track_id = tid)).length ≤ 1 →
      ((st.vehicle_states.lookup tid).isSome = true ∨
        (dets.filter fun d => decide (d.track_id = tid)).length = 0) →
      (∀ p ∈ (dets.foldl (process_detection settings l1 l2 fn) st).vehicle_states,
        p.1 = tid → p.2.counted = true) ∧
      (dets.foldl (process_detection settings l1 l2 fn) st).pending_detections.filter
          (fun r => decide (r.vehicle_id = tid)) =
        st.pending_detections.filter (fun r => decide (r.vehicle_id = tid)) ∧
      (dets.foldl (process_detection settings l1 l2 fn) st).emitted_rows = st.emitted_rows := by
  intro dets
  induction dets with
  | nil =>
    intro st hinv _ _
    exact ⟨hinv, rfl, rfl⟩
  | cons d rest ih =>
    intro st hinv hone hdisj
    rw [List.foldl_cons]
    by_cases hd : d.track_id = tid
    · have hfil : ((d :: rest).filter fun x => decide (x.track_id = tid)) =
          d :: (rest.filter fun x => decide (x.track_id = tid)) := by
        simp [List.filter_cons, hd]
      rw [hfil] at hone hdisj
      simp only [List.length_cons] at hone hdisj
      have hrest0 : (rest.filter fun x => decide (x.track_id = tid)).length = 0 := by omega
      have hsome : (st.vehicle_states.lookup tid).isSome = true := by
        rcases hdisj with hx | hx
        · exact hx
        · omega
      rcases Option.isSome_iff_exists.mp hsome with ⟨vs, hvs⟩
      have hvsc : vs.counted = true := hinv (tid, vs) (lookup_mem hvs) rfl
      have hvsd : st.vehicle_states.lookup d.track_id = some vs := by
        rw [hd]
        exact hvs
      have hub : (update_vehicle_movement vs d.box fn).counted = true := hvsc
      rcases process_detection_of_counted hvsd hvsc with heq | heq
      · rw [heq]
        refine ih _ ?_ (by omega) (Or.inr hrest0)
        intro p hp hpt
        rcases mem_dictInsert (mem_dictErase hp) with hmem | hmem
        · exact hinv p hmem hpt
        · rw [hmem]
          exact hub
      · rw [heq]
        refine ih _ ?_ (by omega) (Or.inr hrest0)
        intro p hp hpt
        rcases mem_dictInsert hp with hmem | hmem
        · exact hinv p hmem hpt
        · rw [hmem]
          exact hub
    · have hfil : ((d :: rest).filter fun x => decide (x.track_id = tid)) =
          rest.filter fun x => decide (x.track_id = tid) := by
        simp [List.filter_cons, hd]
      rw [hfil] at hone hdisj
      have hinv1 : ∀ p ∈ (process_detection settings l1 l2 fn st d).vehicle_states,
          p.1 = tid → p.2.counted = true := by
        intro p hp hpt
        rcases mem_process_detection hp with hmem | hmem
        · exact hinv p hmem hpt
        · exact absurd (hmem.symm.trans hpt) hd
      have hdisj1 : (((process_detection settings l1 l2 fn st d).vehicle_states.lookup
            tid).isSome = true) ∨
          (rest.filter fun x => decide (x.track_id = tid)).length = 0 := by
        rcases hdisj with hx | hx
        · left
          rw [process_detection_lookup_other settings l1 l2 fn st d tid hd]
          exact hx
        · exact Or.inr hx
      obtain ⟨ih1, ih2, ih3⟩ := ih (process_detection settings l1 l2 fn st d) hinv1 hone hdisj1
      refine ⟨ih1, ?_, ?_⟩
      · rw [ih2]
        obtain ⟨rows, hre, hrid⟩ := process_detection_pending settings l1 l2 fn st d
        rw [hre, List.filter_append]
        have hempty : rows.filter (fun r => decide (r.vehicle_id = tid)) = [] := by
          rw [List.filter_eq_nil_iff]
          intro r hr
          simp [hrid r hr, hd]
        rw [hempty, List.append_nil]
      · rw [ih3]
        exact process_detection_emitted settings l1 l2 fn st d

/-- C1, amended: within one continuous run, while a track's record persists
in the store its `counted` flag never reverts and no further CountEvent row
is produced for that id — over a whole cycle whose (oracle-supplied)
detections contain the id at most once, a counted record either disappears
(Movement Validator or Stale Track Reaper eviction) or remains counted, and
the rows emitted for that id are exactly those already accumulated. Only
after the Reaper deletes the record can a reappearing id be re-initialized
and counted a second time, as `C1_counterexample` shows. -/
theorem C1_amended (settings : Settings) (h w : ℚ) (st : LoopState) (fn : Nat)
    (dets : List Detection) (tid : Nat) (vs : VehicleState)
    (hnd : (st.vehicle_states.map Prod.fst).Nodup)
    (hone : (dets.filter fun d => decide (d.track_id = tid)).length ≤ 1)
    (hvs : st.vehicle_states.lookup tid = some vs)
    (hcnt : vs.counted = true) :
    ((process_frame settings h w st fn dets).vehicle_states.lookup tid = none ∨
      ∃ vs', (process_frame settings h w st fn dets).vehicle_states.lookup tid = some vs' ∧
        vs'.counted = true) ∧
    (process_frame settings h w st fn dets).emitted_rows.filter
        (fun r => decide (r.vehicle_id = tid)) =
      (st.emitted_rows ++ st.pending_detections).filter
        (fun r => decide (r.vehicle_id = tid)) := by
  have hinv : ∀ p ∈ st.vehicle_states, p.1 = tid → p.2.counted = true := by
    intro p hp hpt
    rw [all_eq_of_lookup_nodup st.vehicle_states tid vs hnd hvs p hp hpt]
    exact hcnt
  have hone' : (((enhanced_detection_validation dets settings (h, w)).filter
      fun d => decide (d.track_id = tid)).length ≤ 1) :=
    le_trans (List.Sublist.length_le ((List.filter_sublist _).filter _)) hone
  obtain ⟨f1, f2, f3⟩ :=
    fold_keeps_counted settings (line_positions settings h w).1 (line_positions settings h w).2
      fn tid (enhanced_detection_validation dets settings (h, w)) st hinv hone'
      (Or.inl (by rw [hvs]; rfl))
  constructor
  · have hframe : (process_frame settings h w st fn dets).vehicle_states =
        cleanup_inactive fn ((enhanced_detection_validation dets settings (h, w)).foldl
          (process_detection settings (line_positions settings h w).1
            (line_positions settings h w).2 fn) st).vehicle_states := rfl
    rw [hframe]
    cases hcl : (cleanup_inactive fn ((enhanced_detection_validation dets settings (h, w)).foldl
        (process_detection settings (line_positions settings h w).1
          (line_positions settings h w).2 fn) st).vehicle_states).lookup tid with
    | none => exact Or.inl rfl
    | some v =>
      right
      refine ⟨v, rfl, ?_⟩
      exact f1 (tid, v) (List.mem_of_mem_filter (lookup_mem hcl)) rfl
  · have hframe : (process_frame settings h w st fn dets).emitted_rows =
        ((enhanced_detection_validation dets settings (h, w)).foldl
          (process_detection settings (line_positions settings h w).1
            (line_positions settings h w).2 fn) st).emitted_rows ++
        ((enhanced_detection_validation dets settings (h, w)).foldl
          (process_detection settings (line_positions settings h w).1
            (line_positions settings h w).2 fn) st).pending_detections := rfl
    rw [hframe, List.filter_append, List.filter_append, f2, f3]

/-- Witness for C1_amended: a store holding the already-counted track 7
processed over an empty frame at frame number 5. -/
theorem C1_amended_witness :
    ((process_frame horiz_settings 720 960 c1w_state 5 []).vehicle_states.lookup 7 = none ∨
      ∃ vs', (process_frame horiz_settings 720 960 c1w_state 5 []).vehicle_states.lookup 7 =
          some vs' ∧ vs'.counted = true) ∧
    (process_frame horiz_settings 720 960 c1w_state 5 []).emitted_rows.filter
        (fun r => decide (r.vehicle_id = 7)) =
      (c1w_state.emitted_rows ++ c1w_state.pending_detections).filter
        (fun r => decide (r.vehicle_id = 7)) :=
  C1_amended horiz_settings 720 960 c1w_state 5 [] 7 counted_vs
    (by decide) (by decide) (by decide) (by decide)

end Counting
